import Mathlib

/-!
Shallow embedding of the track-classification heuristics of the repository
`Abpattar/Python_Programming`:

* `VerseOrVibe` — the instrumental-vs-lyrical scorer
  (`is_likely_instrumental_advanced`, `analyze_audio_features`,
  `analyze_genres` from `VerseOrVibe.py`), and
* `CulturaSort` — the Indian-vs-international boolean classifier
  (`is_indian_track` from `cultura_sort.py`).

Track names and keywords are modelled as `String` / `List Char`; Python
substring membership (`kw in name`) becomes `containsSub`; the regular
expressions of `INSTRUMENTAL_PATTERNS` / `VOCAL_PATTERNS` are translated
pattern-by-pattern into executable word-boundary matchers (ASCII `\w`,
matching the ASCII inputs considered here); real-valued scores become exact
rationals.  Optional enrichment inputs (audio features, artist-genre info)
and optional track fields become `Option` values, mirroring the Python
`dict.get` defaults and truthiness tests.
-/

namespace Spec2Proof

/-- Python `needle in hay` restricted to the starting position: `hay` starts
with `needle`. -/
def startsWithL : List Char → List Char → Bool
  | [], _ => true
  | _ :: _, [] => false
  | a :: as, b :: bs => a = b && startsWithL as bs

/-- Python substring test `needle in hay` on character lists. -/
def containsSub (needle : List Char) : List Char → Bool
  | [] => startsWithL needle []
  | c :: t => startsWithL needle (c :: t) || containsSub needle t

/-- Python `str.lower()` on an ASCII string, as a character list. -/
def lowerL (s : String) : List Char := s.toList.map Char.toLower

/-- ASCII word character, Python regex `\w`. -/
def isWordChar (c : Char) : Bool := c.isAlphanum || c = '_'

/-- Python regex `\s` (ASCII whitespace). -/
def isSpaceChar (c : Char) : Bool :=
  c.toNat = 32 || c.toNat = 9 || c.toNat = 10 || c.toNat = 13 ||
  c.toNat = 11 || c.toNat = 12

/-- Python `re.search`: try the position predicate at every position of the text.
The predicate receives the character just before the position (`none` at the
start) and the remaining text. -/
def searchFrom (p : Option Char → List Char → Bool) : Option Char → List Char → Bool
  | prev, [] => p prev []
  | prev, c :: t => p prev (c :: t) || searchFrom p (some c) t

/-- Python `re.search` from the start of the text. -/
def search (p : Option Char → List Char → Bool) (text : List Char) : Bool :=
  searchFrom p none text

/-- A `\b` just before a word character holds when the previous character is
absent or not a word character. -/
def boundaryBefore : Option Char → Bool
  | none => true
  | some c => !isWordChar c

/-- A `\b` just after a word character holds when the next character is absent
or not a word character. -/
def boundaryAfterWord : List Char → Bool
  | [] => true
  | c :: _ => !isWordChar c

/-- Consume a literal; `none` when the text does not start with it. -/
def dropLit (w : List Char) (l : List Char) : Option (List Char) :=
  match w, l with
  | [], rest => some rest
  | _ :: _, [] => none
  | a :: as, b :: bs => if a = b then dropLit as bs else none

/-- Consume `\s+` (at least one whitespace character, greedily). -/
def dropSpaces1 : List Char → Option (List Char)
  | [] => none
  | c :: t =>
    if isSpaceChar c then
      some (t.dropWhile isSpaceChar)
    else none

/-- Consume `\d+` (at least one digit, greedily). -/
def dropDigits1 : List Char → Option (List Char)
  | [] => none
  | c :: t =>
    if c.isDigit then
      some (t.dropWhile Char.isDigit)
    else none

/-- Regex `\b(w1|w2|...)\b` for word-character literals. -/
def wordAltHit (ws : List String) (text : List Char) : Bool :=
  search (fun prev l =>
    boundaryBefore prev &&
    ws.any (fun w =>
      match dropLit w.toList l with
      | some rest => boundaryAfterWord rest
      | none => false)) text

/-- Regex `\b(a1|a2|...)\s+(b1|b2|...)\b` for literal alternatives. -/
def wordPairHit (as bs : List String) (text : List Char) : Bool :=
  search (fun prev l =>
    boundaryBefore prev &&
    as.any (fun a =>
      match dropLit a.toList l with
      | some r1 =>
        match dropSpaces1 r1 with
        | some r2 =>
          bs.any (fun b =>
            match dropLit b.toList r2 with
            | some r3 => boundaryAfterWord r3
            | none => false)
        | none => false
      | none => false)) text

/-- Regex `\b(movement|part)\s+\d+\b` (classical music movements). -/
def movementPartHit (text : List Char) : Bool :=
  search (fun prev l =>
    boundaryBefore prev &&
    [("movement" : String), "part"].any (fun a =>
      match dropLit a.toList l with
      | some r1 =>
        match dropSpaces1 r1 with
        | some r2 =>
          match dropDigits1 r2 with
          | some r3 => boundaryAfterWord r3
          | none => false
        | none => false
      | none => false)) text

/-- After `\s+`, the tail of regex `[\w\s]+\b`: scanning forward through
whitespace, a word character must be reached. -/
def reachesWord : List Char → Bool
  | [] => false
  | c :: t =>
    if isWordChar c then true
    else if isSpaceChar c then reachesWord t
    else false

/-- Regex `\b(feat\.?|featuring|ft\.?|with)\s+[\w\s]+\b`. -/
def featPatternHit (text : List Char) : Bool :=
  search (fun prev l =>
    boundaryBefore prev &&
    [("feat." : String), "feat", "featuring", "ft.", "ft", "with"].any (fun a =>
      match dropLit a.toList l with
      | some r1 =>
        match r1 with
        | c :: t => isSpaceChar c && reachesWord t
        | [] => false
      | none => false)) text

/-- Plain-substring alternation such as `\(instrumental\)|\[instrumental\]`. -/
def substrAnyHit (ws : List String) (text : List Char) : Bool :=
  ws.any (fun w => containsSub w.toList text)

/-- Inner scan for `.*vocals?X`: advance over non-newline characters until the
literal `vocal`/`vocals` followed by the closing character `cl` appears. -/
def innerVocalScan (cl : Char) : List Char → Bool
  | [] => false
  | c :: t =>
    startsWithL ("vocals".toList ++ [cl]) (c :: t) ||
    startsWithL ("vocal".toList ++ [cl]) (c :: t) ||
    (c != '\n' && innerVocalScan cl t)

/-- Regex `\(.*vocals?\)` (with `op = '('`, `cl = ')'`), or the bracketed
variant `\[.*vocals?\]`. -/
def parenVocalHit (op cl : Char) (text : List Char) : Bool :=
  search (fun _ l =>
    match l with
    | c :: t => c = op && innerVocalScan cl t
    | [] => false) text

namespace VerseOrVibe

/-- List `STRONG_INSTRUMENTAL_KEYWORDS` from `VerseOrVibe.py`. -/
def STRONG_INSTRUMENTAL_KEYWORDS : List String :=
  ["instrumental", "karaoke", "backing track", "playback", "music box",
   "orchestral", "symphony", "concerto", "sonata", "prelude", "etude",
   "interlude", "intro", "outro", "overture", "finale", "movement",
   "ambient", "cinematic", "soundtrack", "film score", "movie theme",
   "piano solo", "guitar solo", "violin solo", "saxophone solo", "drum solo",
   "acoustic guitar", "classical guitar", "jazz instrumental",
   "without vocals", "no vocals", "vocals removed", "minus one",
   "meditation music", "background music", "study music", "relaxing music",
   "lofi instrumental", "chillhop instrumental", "beats to study", "ost",
   "original soundtrack"]

/-- List `MEDIUM_INSTRUMENTAL_KEYWORDS` from `VerseOrVibe.py`. -/
def MEDIUM_INSTRUMENTAL_KEYWORDS : List String :=
  ["theme", "score", "suite", "variations", "improvisation", "jam",
   "acoustic", "unplugged version", "demo version", "rehearsal",
   "live recording", "studio session", "soundscape", "atmosphere"]

/-- List `STRONG_VOCAL_KEYWORDS` from `VerseOrVibe.py`. -/
def STRONG_VOCAL_KEYWORDS : List String :=
  ["vocals", "singer", "sung by", "featuring", "ft.", "feat.",
   "duet", "chorus", "verse", "lyrics", "ballad", "anthem",
   "acoustic version", "live version", "cover version", "remix",
   "radio edit", "single version", "album version", "extended version"]

/-- List `INSTRUMENTAL_GENRES` from `VerseOrVibe.py`. -/
def INSTRUMENTAL_GENRES : List String :=
  ["ambient", "classical", "instrumental", "soundtrack", "score",
   "new age", "meditation", "nature sounds", "white noise",
   "jazz fusion", "smooth jazz instrumental", "classical crossover",
   "post-rock", "math rock", "experimental", "drone",
   "minimal techno", "deep house instrumental", "trance instrumental",
   "lo-fi beats", "chillhop", "downtempo", "trip-hop instrumental"]

/-- List `VOCAL_GENRES` from `VerseOrVibe.py`. -/
def VOCAL_GENRES : List String :=
  ["pop", "rock", "hip hop", "rap", "r&b", "soul", "funk", "disco",
   "country", "folk", "indie pop", "indie rock", "alternative",
   "punk", "metal", "blues", "reggae", "ska", "gospel",
   "singer-songwriter", "acoustic pop", "vocal jazz", "cabaret"]

/-- List `INSTRUMENTAL_ARTIST_TYPES` from `VerseOrVibe.py`. -/
def INSTRUMENTAL_ARTIST_TYPES : List String :=
  ["orchestra", "symphony", "philharmonic", "ensemble", "quartet", "trio",
   "band", "collective", "project", "soundsystem", "beats", "productions"]

/-- List `INSTRUMENTAL_PATTERNS` from `VerseOrVibe.py`, each regex translated into
an executable matcher (in source order). -/
def INSTRUMENTAL_PATTERNS : List (List Char → Bool) :=
  [wordAltHit ["instrumental", "karaoke", "backing", "playback"],
   wordPairHit ["without", "minus", "no"] ["vocals", "vocal", "voice", "singing"],
   wordPairHit ["piano", "guitar", "violin", "saxophone", "drums", "drum", "bass"]
     ["solo", "version", "instrumental"],
   wordAltHit ["theme", "score", "soundtrack", "ost"],
   movementPartHit,
   wordAltHit ["prelude", "interlude", "outro", "intro"],
   wordAltHit ["ambient", "cinematic", "atmospheric"],
   wordPairHit ["study", "focus", "concentration", "meditation"] ["music", "beats"],
   wordPairHit ["lofi", "lo-fi", "chill"] ["beats", "hip hop", "instrumental"],
   substrAnyHit ["(instrumental)", "[instrumental]"],
   substrAnyHit ["(no vocals)", "(no vocal)", "[no vocals]", "[no vocal]"],
   substrAnyHit ["(acoustic)", "[acoustic]"]]

/-- List `VOCAL_PATTERNS` from `VerseOrVibe.py`, each regex translated into an
executable matcher (in source order). -/
def VOCAL_PATTERNS : List (List Char → Bool) :=
  [wordAltHit ["vocals", "vocal", "singer", "sung"],
   featPatternHit,
   wordPairHit ["cover", "version"] ["by"],
   wordPairHit ["radio", "single", "album", "extended"] ["edit", "version", "mix"],
   parenVocalHit '(' ')',
   parenVocalHit '[' ']']

/-- A track record: `name`, `artists` (artist names), optional `album` name,
optional `duration_ms` and `track_number` (Python `track.get(..., 0)`). -/
structure Track where
  name : String
  artists : List String
  album : Option String
  duration_ms : Option Nat
  track_number : Option Nat

/-- One audio-features record; each attribute is read by
`features.get(attr, 0)`, hence optional with default `0`. -/
structure AudioFeatures where
  speechiness : Option ℚ
  instrumentalness : Option ℚ
  energy : Option ℚ
  valence : Option ℚ
  danceability : Option ℚ

/-- Per-artist info used for genre analysis; the `genres` key may be absent. -/
structure ArtistInfo where
  genres : Option (List String)

/-- Function `analyze_audio_features` from `VerseOrVibe.py` (score and reasons; the
numeric interpolations of the reason strings are elided).  The `None` case of
its `if not features` guard is handled at the caller by the `Option`. -/
def analyze_audio_features (features : AudioFeatures) : ℚ × List String :=
  let speechiness := features.speechiness.getD 0
  let instrumentalness := features.instrumentalness.getD 0
  let energy := features.energy.getD 0
  let danceability := features.danceability.getD 0
  ((if speechiness < 0.05 then 3
    else if speechiness < 0.1 then 2
    else if speechiness > 0.3 then -3
    else if speechiness > 0.15 then -1
    else 0)
   + (if instrumentalness > 0.7 then 4
      else if instrumentalness > 0.5 then 2
      else if instrumentalness < 0.1 then -1
      else 0)
   + (if energy < 0.3 then 0.5 else 0)
   + (if danceability < 0.3 ∧ energy < 0.4 then 1 else 0),
   (if speechiness < 0.05 then ["Very low speechiness - likely instrumental"]
    else if speechiness < 0.1 then ["Low speechiness - possibly instrumental"]
    else if speechiness > 0.3 then ["High speechiness - likely has vocals"]
    else if speechiness > 0.15 then ["Medium speechiness - possibly has vocals"]
    else [])
   ++ (if instrumentalness > 0.7 then ["High instrumentalness - strong instrumental indicator"]
       else if instrumentalness > 0.5 then ["Medium instrumentalness - likely instrumental"]
       else if instrumentalness < 0.1 then ["Low instrumentalness - likely has vocals"]
       else [])
   ++ (if energy < 0.3 then ["Low energy - classical/ambient pattern"] else [])
   ++ (if danceability < 0.3 ∧ energy < 0.4 then
         ["Low danceability + energy - classical/meditative pattern"]
       else []))

/-- The lowercased genre tags collected by `analyze_genres` from the artist
info list (skipping failed lookups and artists without a `genres` key). -/
def allGenresOf (artist_info_list : List (Option ArtistInfo)) : List (List Char) :=
  artist_info_list.foldl (fun acc a =>
    match a with
    | some ai =>
      match ai.genres with
      | some gs => acc ++ gs.map lowerL
      | none => acc
    | none => acc) []

/-- Function `analyze_genres` from `VerseOrVibe.py` (score and reasons; the genre-name
interpolations of the reason strings are elided). -/
def analyze_genres (artist_info_list : List (Option ArtistInfo)) : ℚ × List String :=
  if artist_info_list.isEmpty then (0, [])
  else
    let all_genres := allGenresOf artist_info_list
    if all_genres.isEmpty then (0, ["No genre information available"])
    else
      let instrumental_matches := all_genres.filter (fun genre =>
        INSTRUMENTAL_GENRES.any (fun inst_genre => containsSub inst_genre.toList genre))
      let vocal_matches := all_genres.filter (fun genre =>
        VOCAL_GENRES.any (fun vocal_genre => containsSub vocal_genre.toList genre))
      ((if ¬instrumental_matches.isEmpty then (instrumental_matches.length : ℚ) * 2 else 0)
        + (if ¬vocal_matches.isEmpty then -(vocal_matches.length : ℚ) else 0),
       (if ¬instrumental_matches.isEmpty then ["Instrumental genres found"] else [])
        ++ (if ¬vocal_matches.isEmpty then ["Vocal genres found"] else []))

/-- Whether some collected genre tag contains a `VOCAL_GENRES` substring, that
is, whether the `vocal_matches` list of `analyze_genres` is nonempty. -/
def vocalGenreHit (artist_info_list : List (Option ArtistInfo)) : Bool :=
  (allGenresOf artist_info_list).any (fun genre =>
    VOCAL_GENRES.any (fun vocal_genre => containsSub vocal_genre.toList genre))

/-- Step 1: `any(keyword in track_name for keyword in STRONG_INSTRUMENTAL_KEYWORDS)`. -/
def strong_instrumental_found (track_name : List Char) : Bool :=
  STRONG_INSTRUMENTAL_KEYWORDS.any (fun keyword => containsSub keyword.toList track_name)

/-- Step 2: `any(keyword in track_name for keyword in MEDIUM_INSTRUMENTAL_KEYWORDS)`. -/
def medium_instrumental_found (track_name : List Char) : Bool :=
  MEDIUM_INSTRUMENTAL_KEYWORDS.any (fun keyword => containsSub keyword.toList track_name)

/-- Step 3: `any(keyword in track_name for keyword in STRONG_VOCAL_KEYWORDS)`. -/
def strong_vocal_found (track_name : List Char) : Bool :=
  STRONG_VOCAL_KEYWORDS.any (fun keyword => containsSub keyword.toList track_name)

/-- The `for pattern in ...: if re.search(...): ...; break` loop shape of
step 4: scan the pattern list, stopping at the first match. -/
def firstPatternHit : List (List Char → Bool) → List Char → Bool
  | [], _ => false
  | p :: ps, track_name => if p track_name then true else firstPatternHit ps track_name

/-- Step 5: `any(keyword in album_name for keyword in STRONG_INSTRUMENTAL_KEYWORDS)`. -/
def album_keyword_found (album_name : List Char) : Bool :=
  STRONG_INSTRUMENTAL_KEYWORDS.any (fun keyword => containsSub keyword.toList album_name)

/-- Step 6: the artists whose lowercased name contains an
`INSTRUMENTAL_ARTIST_TYPES` substring; the loop adds `+2` per such artist. -/
def matchingArtists (artist_names : List (List Char)) : List (List Char) :=
  artist_names.filter (fun artist_name =>
    INSTRUMENTAL_ARTIST_TYPES.any (fun artist_type => containsSub artist_type.toList artist_name))

/-- Step 9: the duration adjustment, from `duration_ms` (`track.get('duration_ms', 0)`)
and the step-3 flag; `duration_min = duration_ms / 60000`. -/
def durationScore (duration_ms : Nat) (strong_vocal : Bool) : ℚ :=
  let duration_min : ℚ := (duration_ms : ℚ) / 60000
  if duration_min < 0.5 then 2
  else if duration_min > 8 ∧ strong_vocal = false then 1
  else 0

/-- Step 10: `track_number == 1 and 'intro' in track_name`. -/
def trackNumberScore (track_number : Nat) (track_name : List Char) : ℚ :=
  if track_number = 1 ∧ containsSub ("intro".toList) track_name then 1 else 0

/-- The audio-features contribution of step 7 (`0` when no features were
fetched, mirroring `if audio_features:`). -/
def audioScoreOf (audio_features : Option AudioFeatures) : ℚ :=
  match audio_features with
  | some features => (analyze_audio_features features).1
  | none => 0

/-- The genre contribution of step 8 (`0` when the artist-info list is empty,
mirroring `if artist_info_list:`). -/
def genreScoreOf (artist_info_list : List (Option ArtistInfo)) : ℚ :=
  if ¬artist_info_list.isEmpty then (analyze_genres artist_info_list).1 else 0

/-- The accumulated `total_score` of `is_likely_instrumental_advanced`: the
sum of the contributions of its ten numbered steps, in source order. -/
def totalScore (track : Track) (audio_features : Option AudioFeatures)
    (artist_info_list : List (Option ArtistInfo)) : ℚ :=
  let track_name := lowerL track.name
  let artist_names := track.artists.map lowerL
  let album_name := match track.album with | some a => lowerL a | none => []
  (if strong_instrumental_found track_name then 5 else 0)
  + (if medium_instrumental_found track_name then 2 else 0)
  + (if strong_vocal_found track_name then -4 else 0)
  + (if firstPatternHit INSTRUMENTAL_PATTERNS track_name then 3 else 0)
  + (if firstPatternHit VOCAL_PATTERNS track_name then -3 else 0)
  + (if album_keyword_found album_name then 1 else 0)
  + 2 * ((matchingArtists artist_names).length : ℚ)
  + audioScoreOf audio_features
  + genreScoreOf artist_info_list
  + durationScore (track.duration_ms.getD 0) (strong_vocal_found track_name)
  + trackNumberScore (track.track_number.getD 0) track_name

/-- The accumulated `all_reasons` of `is_likely_instrumental_advanced`, in
append order (interpolated values elided). -/
def allReasons (track : Track) (audio_features : Option AudioFeatures)
    (artist_info_list : List (Option ArtistInfo)) : List String :=
  let track_name := lowerL track.name
  let artist_names := track.artists.map lowerL
  let album_name := match track.album with | some a => lowerL a | none => []
  (if strong_instrumental_found track_name then ["Strong instrumental keywords"] else [])
  ++ (if medium_instrumental_found track_name then ["Medium instrumental keywords"] else [])
  ++ (if strong_vocal_found track_name then ["Strong vocal keywords"] else [])
  ++ (if firstPatternHit INSTRUMENTAL_PATTERNS track_name then ["Matches instrumental pattern"] else [])
  ++ (if firstPatternHit VOCAL_PATTERNS track_name then ["Matches vocal pattern"] else [])
  ++ (if album_keyword_found album_name then ["Album name suggests instrumental"] else [])
  ++ (matchingArtists artist_names).map (fun _ => "Artist type suggests instrumental")
  ++ (match audio_features with
      | some features => (analyze_audio_features features).2
      | none => [])
  ++ (if ¬artist_info_list.isEmpty then (analyze_genres artist_info_list).2 else [])
  ++ (let duration_min : ℚ := ((track.duration_ms.getD 0 : ℕ) : ℚ) / 60000
      if duration_min < 0.5 then ["Very short duration - likely intro/outro"]
      else if duration_min > 8 ∧ strong_vocal_found track_name = false then
        ["Long duration without vocal indicators"]
      else [])
  ++ (if track.track_number.getD 0 = 1 ∧ containsSub ("intro".toList) track_name then
        ["First track with intro in name"]
      else [])

/-- The triple returned by `is_likely_instrumental_advanced`:
`(is_instrumental, total_score, all_reasons)`.  The second component is the
value the caller binds to the name `confidence`. -/
structure ScoreResult where
  is_instrumental : Bool
  total_score : ℚ
  all_reasons : List String

/-- Function `is_likely_instrumental_advanced` from `VerseOrVibe.py`. -/
def is_likely_instrumental_advanced (track : Track)
    (audio_features : Option AudioFeatures := none)
    (artist_info_list : List (Option ArtistInfo) := []) : ScoreResult :=
  { is_instrumental := decide (totalScore track audio_features artist_info_list > 1.5),
    total_score := totalScore track audio_features artist_info_list,
    all_reasons := allReasons track audio_features artist_info_list }

/-- The prefix filtered out by the `method_count` computation. -/
def noInfoTag : String := "No "

/-- Count `method_count = len([r for r in all_reasons if not r.startswith("No ")])`. -/
def method_count (all_reasons : List String) : ℕ :=
  (all_reasons.filter (fun r => !(r.startsWith noInfoTag))).length

/-- The `confidence_level` computed (and then discarded) at the end of
`is_likely_instrumental_advanced`: `abs(total_score)`, raised by `0.5` when
`method_count >= 3`. -/
def confidence_level (track : Track) (audio_features : Option AudioFeatures)
    (artist_info_list : List (Option ArtistInfo)) : ℚ :=
  let res := is_likely_instrumental_advanced track audio_features artist_info_list
  let base := |res.total_score|
  if method_count res.all_reasons ≥ 3 then base + 0.5 else base

end VerseOrVibe

namespace CulturaSort

/-- List `INDIAN_LANG_KEYWORDS` from `cultura_sort.py`. -/
def INDIAN_LANG_KEYWORDS : List String :=
  ["hindi", "kannada", "telugu", "tamil", "malayalam", "bengali", "assamese", "sanskrit",
   "punjabi", "gujarati", "marathi", "odia", "bhojpuri", "urdu"]

/-- List `INDIAN_GENRE_KEYWORDS` from `cultura_sort.py`. -/
def INDIAN_GENRE_KEYWORDS : List String :=
  ["sandalwood", "bollywood", "tollywood", "kollywood", "mollywood", "devotional",
   "bhajan", "qawwali", "classical indian", "carnatic", "hindustani", "raga",
   "ghazal", "kirtan", "mantra", "fusion indian", "indipop", "filmi", "sufi",
   "indian classical", "indian folk", "indian pop"]

/-- List `POPULAR_INDIAN_ARTISTS` from `cultura_sort.py`. -/
def POPULAR_INDIAN_ARTISTS : List String :=
  ["a.r. rahman", "ilaiyaraaja", "shankar mahadevan", "udit narayan",
   "lata mangeshkar", "kishore kumar", "anirudh ravichander", "yuvan shankar raja",
   "harris jayaraj", "vishal-shekhar", "shankar-ehsaan-loy", "amit trivedi",
   "arijit singh", "shreya ghoshal", "k.j. yesudas", "s.p. balasubrahmanyam",
   "devi sri prasad", "thaman s", "ghibran", "santhosh narayanan",
   "ravi basrur", "ajaneesh loknath", "b. ajaneesh loknath", "vijay prakash",
   "sonu nigam", "m.m keeravaani", "v. harikrishna", "anup bhandari",
   "rajesh krishnan", "ananya bhat", "kala bhairava", "ankit tiwari", "raghu dixit",
   "dr. rajkumar", "rajkumar", "rahat fateh ali khan", "nusrat fateh ali khan",
   "mohammed rafi", "mukesh", "hemant kumar", "manna dey", "jagjit singh",
   "ghulam ali", "hariharan", "unni menon", "kailash kher", "sukhwinder singh"]

/-- List `INDIAN_SONG_KEYWORDS` from `cultura_sort.py`. -/
def INDIAN_SONG_KEYWORDS : List String :=
  ["bollywood", "item number", "playback", "duet", "sad version", "unplugged",
   "qawwali", "thumri", "bhajan", "aarti", "shloka"]

/-- A track as consumed by `is_indian_track`: name, artist names, optional
album name.  The genre lookup for the first artist is a network call inside
the function; it is modelled as the explicit input `fetched_genres` below. -/
structure Track where
  name : String
  artists : List String
  album : Option String

/-- Check 1: some artist name contains some `POPULAR_INDIAN_ARTISTS` entry. -/
def artist_match (artists : List String) : Bool :=
  (artists.map lowerL).any (fun name =>
    POPULAR_INDIAN_ARTISTS.any (fun indian_artist => containsSub indian_artist.toList name))

/-- Check 2: some `INDIAN_LANG_KEYWORDS` entry occurs in the track name. -/
def lang_match (name : String) : Bool :=
  INDIAN_LANG_KEYWORDS.any (fun lang => containsSub lang.toList (lowerL name))

/-- Check 3: some `INDIAN_SONG_KEYWORDS` entry occurs in the track name. -/
def song_keyword_match (name : String) : Bool :=
  INDIAN_SONG_KEYWORDS.any (fun keyword => containsSub keyword.toList (lowerL name))

/-- Check 4: some `INDIAN_GENRE_KEYWORDS` entry occurs in some fetched genre
of the first artist.  The input is the result of `sp.artist(track['artists'][0]['id'])`
followed by `artist.get('genres', [])`: `none` when the lookup raised (also
when the artist list is empty, an `IndexError` caught by the same handler),
in which case `genre_match` stays `False`. -/
def genre_match (fetched_genres : Option (List String)) : Bool :=
  match fetched_genres with
  | some genres => (genres.map lowerL).any (fun genre =>
      INDIAN_GENRE_KEYWORDS.any (fun indian_genre => containsSub indian_genre.toList genre))
  | none => false

/-- Check 5: some `INDIAN_LANG_KEYWORDS + INDIAN_SONG_KEYWORDS` entry occurs
in the album name (`False` when the track has no album). -/
def album_match (album : Option String) : Bool :=
  match album with
  | some album_name =>
    (INDIAN_LANG_KEYWORDS ++ INDIAN_SONG_KEYWORDS).any (fun keyword =>
      containsSub keyword.toList (lowerL album_name))
  | none => false

/-- Function `is_indian_track` from `cultura_sort.py`: the boolean OR of the five
checks, in source order. -/
def is_indian_track (track : Track) (fetched_genres : Option (List String)) : Bool :=
  artist_match track.artists || lang_match track.name || genre_match fetched_genres
    || song_keyword_match track.name || album_match track.album

end CulturaSort

open VerseOrVibe

/-! ### Helper lemmas -/

/-- The break-at-first-match loop over a pattern list reports a hit exactly
when some pattern in the list matches. -/
theorem firstPatternHit_eq_any (ps : List (List Char → Bool)) (track_name : List Char) :
    firstPatternHit ps track_name = ps.any (fun p => p track_name) := by
  induction ps with
  | nil => rfl
  | cons p rest ih =>
    simp only [firstPatternHit, List.any_cons, ih]
    by_cases h : p track_name <;> simp [h]

/-- The duration adjustment never subtracts from the score. -/
theorem durationScore_nonneg (duration_ms : ℕ) (strong_vocal : Bool) :
    0 ≤ durationScore duration_ms strong_vocal := by
  simp only [durationScore]
  split_ifs <;> norm_num

/-- The track-number adjustment never subtracts from the score. -/
theorem trackNumberScore_nonneg (track_number : ℕ) (track_name : List Char) :
    0 ≤ trackNumberScore track_number track_name := by
  simp only [trackNumberScore]
  split_ifs <;> norm_num

/-- Score component of `analyze_genres`, written as a scalar conditional. -/
theorem analyze_genres_score_eq (artist_info_list : List (Option ArtistInfo)) :
    (analyze_genres artist_info_list).1 =
      if artist_info_list.isEmpty then 0
      else if (allGenresOf artist_info_list).isEmpty then 0
      else
        (if ¬((allGenresOf artist_info_list).filter (fun genre =>
            INSTRUMENTAL_GENRES.any (fun inst_genre =>
              containsSub inst_genre.toList genre))).isEmpty then
          (((allGenresOf artist_info_list).filter (fun genre =>
            INSTRUMENTAL_GENRES.any (fun inst_genre =>
              containsSub inst_genre.toList genre))).length : ℚ) * 2
        else 0)
        + (if ¬((allGenresOf artist_info_list).filter (fun genre =>
            VOCAL_GENRES.any (fun vocal_genre =>
              containsSub vocal_genre.toList genre))).isEmpty then
            -(((allGenresOf artist_info_list).filter (fun genre =>
              VOCAL_GENRES.any (fun vocal_genre =>
                containsSub vocal_genre.toList genre))).length : ℚ)
          else 0) := by
  simp only [analyze_genres]
  split_ifs <;> rfl

/-- Without any vocal-genre match, the genre contribution is nonnegative. -/
theorem genreScoreOf_nonneg (artist_info_list : List (Option ArtistInfo))
    (h : vocalGenreHit artist_info_list = false) :
    0 ≤ genreScoreOf artist_info_list := by
  have hv : (allGenresOf artist_info_list).filter (fun genre =>
      VOCAL_GENRES.any (fun vocal_genre => containsSub vocal_genre.toList genre)) = [] := by
    rw [List.filter_eq_nil_iff]
    intro a ha
    simpa using (List.any_eq_false.mp h) a ha
  simp only [genreScoreOf]
  split_ifs with hne
  · norm_num
  · rw [analyze_genres_score_eq, hv]
    simp only [List.isEmpty_nil, not_true, if_false, List.length_nil, add_zero, ite_false]
    split_ifs <;> positivity

/-- With no enrichment inputs, `total_score` is the sum of the
non-enrichment contributions alone (the audio and genre terms vanish). -/
theorem totalScore_no_enrichment (t : Track) :
    totalScore t none [] =
      (if strong_instrumental_found (lowerL t.name) then 5 else 0)
      + (if medium_instrumental_found (lowerL t.name) then 2 else 0)
      + (if strong_vocal_found (lowerL t.name) then -4 else 0)
      + (if firstPatternHit INSTRUMENTAL_PATTERNS (lowerL t.name) then 3 else 0)
      + (if firstPatternHit VOCAL_PATTERNS (lowerL t.name) then -3 else 0)
      + (if album_keyword_found (match t.album with | some a => lowerL a | none => []) then 1 else 0)
      + 2 * ((matchingArtists (t.artists.map lowerL)).length : ℚ)
      + durationScore (t.duration_ms.getD 0) (strong_vocal_found (lowerL t.name))
      + trackNumberScore (t.track_number.getD 0) (lowerL t.name) := by
  simp [totalScore, audioScoreOf, genreScoreOf]

/-! ### Spec-side definition for the audio-feature bracket structure -/

/-- First-matching-bracket evaluation: the delta of the first condition that
holds, `0` when none does. -/
def firstBracket : List ((ℚ → Bool) × ℚ) → ℚ → ℚ
  | [], _ => 0
  | (c, d) :: rest, x => if c x then d else firstBracket rest x

/-- Spec-side restatement of the audio-feature sub-score of claim C5: one
speechiness bracket in the stated order, one instrumentalness bracket, the
energy bonus and the danceability-and-energy bonus, summed. -/
def audioScoreSpec (features : AudioFeatures) : ℚ :=
  firstBracket
    [(fun s => decide (s < 0.05), 3), (fun s => decide (s < 0.1), 2),
     (fun s => decide (s > 0.3), -3), (fun s => decide (s > 0.15), -1)]
    (features.speechiness.getD 0)
  + firstBracket
      [(fun x => decide (x > 0.7), 4), (fun x => decide (x > 0.5), 2),
       (fun x => decide (x < 0.1), -1)]
      (features.instrumentalness.getD 0)
  + (if features.energy.getD 0 < 0.3 then 0.5 else 0)
  + (if features.danceability.getD 0 < 0.3 ∧ features.energy.getD 0 < 0.4 then 1 else 0)

/-! ### Claims -/

/-- Claim C1: for every track and every optional enrichment input, the
classifier labels the track instrumental exactly when the accumulated total
score is strictly greater than `1.5`, and lyrical otherwise; the comparison
is on the exact numeric total. -/
theorem claim1_label_iff_threshold (t : Track) (af : Option AudioFeatures)
    (ail : List (Option ArtistInfo)) :
    (is_likely_instrumental_advanced t af ail).is_instrumental = true ↔
      (is_likely_instrumental_advanced t af ail).total_score > 1.5 := by
  simp [is_likely_instrumental_advanced]

/-- Track used for the claim C2 counterexample: its total score is `-7`
(strong vocal keyword `-4`, vocal regex pattern `-3`). -/
def loveSongTrack : Track :=
  { name := "Love Song (feat. John Smith)", artists := [], album := none,
    duration_ms := some 210000, track_number := none }

/-- Claim C2 counterexample: the confidence value returned by the classifier
(the second component of the returned triple, bound to `confidence` by the
caller) is the raw signed total score `-7` for this track, not the absolute
value of the total score, with or without the `+0.5` boost claimed. -/
theorem claim2_counterexample_confidence_is_signed :
    (is_likely_instrumental_advanced loveSongTrack none []).total_score ≠
        |(is_likely_instrumental_advanced loveSongTrack none []).total_score| ∧
      (is_likely_instrumental_advanced loveSongTrack none []).total_score ≠
        |(is_likely_instrumental_advanced loveSongTrack none []).total_score| + 0.5 := by
  have e1 : strong_instrumental_found (lowerL "Love Song (feat. John Smith)") = false := by
    decide
  have e2 : medium_instrumental_found (lowerL "Love Song (feat. John Smith)") = false := by
    decide
  have e3 : strong_vocal_found (lowerL "Love Song (feat. John Smith)") = true := by decide
  have e4 : firstPatternHit INSTRUMENTAL_PATTERNS (lowerL "Love Song (feat. John Smith)") = false := by
    decide
  have e5 : firstPatternHit VOCAL_PATTERNS (lowerL "Love Song (feat. John Smith)") = true := by
    decide
  have h : totalScore loveSongTrack none [] = -7 := by
    norm_num [totalScore, loveSongTrack, e1, e2, e3, e4, e5, audioScoreOf, genreScoreOf,
      durationScore, trackNumberScore, matchingArtists, album_keyword_found,
      STRONG_INSTRUMENTAL_KEYWORDS, containsSub, startsWithL]
  constructor <;>
    · simp only [is_likely_instrumental_advanced, h]
      norm_num [abs_of_nonpos]

/-- Claim C2, amended: the classifier returns the raw signed total score in
the confidence position; the quantity the claim describes — the absolute
value of the total score boosted by `+0.5` when at least `3` recorded reasons
survive the `"No "` filter (each appended reason counted, not each method
category once) — is the internal `confidence_level`, computed and then
discarded. -/
theorem claim2_amended_confidence_level (t : Track) (af : Option AudioFeatures)
    (ail : List (Option ArtistInfo)) :
    (is_likely_instrumental_advanced t af ail).total_score = totalScore t af ail ∧
      confidence_level t af ail =
        |(is_likely_instrumental_advanced t af ail).total_score| +
          (if 3 ≤ method_count (is_likely_instrumental_advanced t af ail).all_reasons
            then 0.5 else 0) := by
  refine ⟨rfl, ?_⟩
  simp only [confidence_level, ge_iff_le]
  split_ifs <;> simp

/-- Claim C5: the audio-feature sub-score equals the spec-side bracket sum —
exactly one speechiness bracket evaluated in the order
`< 0.05, < 0.10, > 0.30, > 0.15` with the first match winning, at most one
instrumentalness bracket in the order `> 0.7, > 0.5, < 0.1`, the `+0.5`
low-energy bonus and the `+1` low-danceability-and-energy bonus. -/
theorem claim5_audio_bracket_structure (features : AudioFeatures) :
    (analyze_audio_features features).1 = audioScoreSpec features := by
  simp only [analyze_audio_features, audioScoreSpec, firstBracket, decide_eq_true_eq]

/-- Claim C6: the pattern-scoring step contributes exactly `+3` when at least
one instrumental regex pattern matches — the loop stops at the first matching
pattern, so simultaneous matches still contribute a single `+3` — and exactly
`-3` when at least one vocal regex pattern matches, again stopping at the
first match. -/
theorem claim6_pattern_step_first_match (track_name : List Char) :
    firstPatternHit INSTRUMENTAL_PATTERNS track_name =
        INSTRUMENTAL_PATTERNS.any (fun p => p track_name) ∧
      firstPatternHit VOCAL_PATTERNS track_name =
        VOCAL_PATTERNS.any (fun p => p track_name) ∧
      (if firstPatternHit INSTRUMENTAL_PATTERNS track_name then (3 : ℚ) else 0) =
        (if INSTRUMENTAL_PATTERNS.any (fun p => p track_name) then 3 else 0) ∧
      (if firstPatternHit VOCAL_PATTERNS track_name then (-3 : ℚ) else 0) =
        (if VOCAL_PATTERNS.any (fun p => p track_name) then -3 else 0) := by
  refine ⟨firstPatternHit_eq_any _ _, firstPatternHit_eq_any _ _, ?_, ?_⟩ <;>
    rw [firstPatternHit_eq_any]

/-- Track used for claim C3: its name `"Sonata"` contains the
strong-instrumental keyword `sonata` and no vocal signal of any kind. -/
def sonataTrack : Track :=
  { name := "Sonata", artists := [], album := none,
    duration_ms := some 210000, track_number := none }

/-- Adversarial audio features for claim C3: high speechiness (`-3`) and low
instrumentalness (`-1`). -/
def sonataFeatures : AudioFeatures :=
  { speechiness := some 0.35, instrumentalness := some 0.05,
    energy := some 0.5, valence := some 0, danceability := some 0.5 }

/-- Claim C3 counterexample: the track `"Sonata"` has a strong-instrumental
keyword in its name and no vocal keyword, vocal pattern, or vocal genre
signal (the artist-info list is empty), yet under the audio-feature
enrichment `sonataFeatures` its total score is `1`, not `> 1.5`, and it is
labeled lyrical — so the quantification over all audio-feature values
fails. -/
theorem claim3_counterexample_audio_defeats_keyword :
    strong_instrumental_found (lowerL "Sonata") = true ∧
      strong_vocal_found (lowerL "Sonata") = false ∧
      firstPatternHit VOCAL_PATTERNS (lowerL "Sonata") = false ∧
      vocalGenreHit [] = false ∧
      totalScore sonataTrack (some sonataFeatures) [] = 1 ∧
      (is_likely_instrumental_advanced sonataTrack (some sonataFeatures) []).is_instrumental
        = false := by
  have e1 : strong_instrumental_found (lowerL "Sonata") = true := by decide
  have e2 : medium_instrumental_found (lowerL "Sonata") = false := by decide
  have e3 : strong_vocal_found (lowerL "Sonata") = false := by decide
  have e4 : firstPatternHit INSTRUMENTAL_PATTERNS (lowerL "Sonata") = false := by decide
  have e5 : firstPatternHit VOCAL_PATTERNS (lowerL "Sonata") = false := by decide
  have h : totalScore sonataTrack (some sonataFeatures) [] = 1 := by
    norm_num [totalScore, sonataTrack, sonataFeatures, e1, e2, e3, e4, e5, audioScoreOf,
      analyze_audio_features, genreScoreOf, durationScore, trackNumberScore, matchingArtists,
      album_keyword_found, STRONG_INSTRUMENTAL_KEYWORDS, containsSub, startsWithL]
  refine ⟨e1, e3, e5, by decide, h, ?_⟩
  simp only [is_likely_instrumental_advanced, h]
  norm_num

/-- Claim C3, amended: for every track whose lowercased name contains a
strong-instrumental keyword and which has no vocal keyword, vocal pattern, or
vocal genre signal, the total score is strictly greater than `1.5` and the
label is instrumental, provided the audio-feature contribution is
nonnegative — in particular whenever the audio-feature enrichment is absent
(the unrestricted quantification over audio features in the original claim is
refuted by `claim3_counterexample_audio_defeats_keyword`). -/
theorem claim3_amended_strong_keyword_instrumental (t : Track)
    (af : Option AudioFeatures) (ail : List (Option ArtistInfo))
    (h1 : strong_instrumental_found (lowerL t.name) = true)
    (h3 : strong_vocal_found (lowerL t.name) = false)
    (h5 : firstPatternHit VOCAL_PATTERNS (lowerL t.name) = false)
    (hg : vocalGenreHit ail = false)
    (ha : 0 ≤ audioScoreOf af) :
    totalScore t af ail > 1.5 ∧
      (is_likely_instrumental_advanced t af ail).is_instrumental = true := by
  have hgen : 0 ≤ genreScoreOf ail := genreScoreOf_nonneg ail hg
  have hdur : 0 ≤ durationScore (t.duration_ms.getD 0) false :=
    durationScore_nonneg _ _
  have htn : 0 ≤ trackNumberScore (t.track_number.getD 0) (lowerL t.name) :=
    trackNumberScore_nonneg _ _
  have hart : (0 : ℚ) ≤ 2 * ((matchingArtists (t.artists.map lowerL)).length : ℚ) := by
    positivity
  have key : totalScore t af ail > 1.5 := by
    simp only [totalScore, h1, h3, h5]
    norm_num
    split_ifs <;> linarith
  exact ⟨key, by simp only [is_likely_instrumental_advanced, decide_eq_true_eq]; exact key⟩

/-- Claim C3 witness: the track `"Sonata"` with no enrichment at all
satisfies all hypotheses of the amended claim and is labeled instrumental. -/
theorem claim3_amended_witness :
    totalScore sonataTrack none [] > 1.5 ∧
      (is_likely_instrumental_advanced sonataTrack none []).is_instrumental = true :=
  claim3_amended_strong_keyword_instrumental sonataTrack none []
    (by decide) (by decide) (by decide) (by decide) (by norm_num [audioScoreOf])

/-- Track with no signal in any category, used for the claim C7 witness. -/
def zzzTrack : Track :=
  { name := "zzz", artists := [], album := none,
    duration_ms := some 60000, track_number := none }

/-- Claim C7: absent optional enrichment (no audio features, no artist genre
info) contributes zero — the total score is exactly the sum of the
non-enrichment contributions, and the (total) classifier never raises — and a
track with no signal from any category scores `0`, is labeled lyrical since
`0 > 1.5` fails, and is flagged low-confidence (`|score| < 2`). -/
theorem claim7_absent_enrichment_and_no_signal (t : Track) :
    (totalScore t none [] =
      (if strong_instrumental_found (lowerL t.name) then 5 else 0)
      + (if medium_instrumental_found (lowerL t.name) then 2 else 0)
      + (if strong_vocal_found (lowerL t.name) then -4 else 0)
      + (if firstPatternHit INSTRUMENTAL_PATTERNS (lowerL t.name) then 3 else 0)
      + (if firstPatternHit VOCAL_PATTERNS (lowerL t.name) then -3 else 0)
      + (if album_keyword_found (match t.album with | some a => lowerL a | none => []) then 1 else 0)
      + 2 * ((matchingArtists (t.artists.map lowerL)).length : ℚ)
      + durationScore (t.duration_ms.getD 0) (strong_vocal_found (lowerL t.name))
      + trackNumberScore (t.track_number.getD 0) (lowerL t.name)) ∧
    (strong_instrumental_found (lowerL t.name) = false →
      medium_instrumental_found (lowerL t.name) = false →
      strong_vocal_found (lowerL t.name) = false →
      firstPatternHit INSTRUMENTAL_PATTERNS (lowerL t.name) = false →
      firstPatternHit VOCAL_PATTERNS (lowerL t.name) = false →
      album_keyword_found (match t.album with | some a => lowerL a | none => []) = false →
      matchingArtists (t.artists.map lowerL) = [] →
      durationScore (t.duration_ms.getD 0) (strong_vocal_found (lowerL t.name)) = 0 →
      trackNumberScore (t.track_number.getD 0) (lowerL t.name) = 0 →
      totalScore t none [] = 0 ∧
        (is_likely_instrumental_advanced t none []).is_instrumental = false ∧
        |totalScore t none []| < 2) := by
  refine ⟨totalScore_no_enrichment t, ?_⟩
  intro h1 h2 h3 h4 h5 h6 h7 h8 h9
  have h : totalScore t none [] = 0 := by
    rw [totalScore_no_enrichment t, h8, h9, h1, h2, h3, h4, h5, h6, h7]
    norm_num
  refine ⟨h, ?_, by rw [h]; norm_num⟩
  simp only [is_likely_instrumental_advanced, h, decide_eq_true_eq]
  norm_num

/-- Claim C7 witness: the signal-free track `"zzz"` (1 minute long, no
album, no artists) scores `0`, is labeled lyrical, and is low-confidence. -/
theorem claim7_witness :
    totalScore zzzTrack none [] = 0 ∧
      (is_likely_instrumental_advanced zzzTrack none []).is_instrumental = false ∧
      |totalScore zzzTrack none []| < 2 :=
  (claim7_absent_enrichment_and_no_signal zzzTrack).2
    (by decide) (by decide) (by decide) (by decide) (by decide) (by decide) (by decide)
    (by norm_num [durationScore, zzzTrack])
    (by norm_num [trackNumberScore, zzzTrack])

/-- Claim C8: the `+2` short-duration bonus is a strict comparison on minutes
(`duration_ms / 60000 < 0.5`): it fires exactly when the duration in minutes
is strictly below one half, so a track of exactly `30000` ms gets no duration
bonus at all while a track of `29999` ms gets `+2`. -/
theorem claim8_duration_strict_boundary (t : Track) :
    (durationScore (t.duration_ms.getD 0) (strong_vocal_found (lowerL t.name)) = 2 ↔
        ((t.duration_ms.getD 0 : ℚ) / 60000 < 0.5)) ∧
      (t.duration_ms = some 30000 →
        durationScore (t.duration_ms.getD 0) (strong_vocal_found (lowerL t.name)) = 0) ∧
      (t.duration_ms = some 29999 →
        durationScore (t.duration_ms.getD 0) (strong_vocal_found (lowerL t.name)) = 2) := by
  refine ⟨?_, fun h => ?_, fun h => ?_⟩
  · simp only [durationScore]
    split_ifs with hc1 hc2
    · exact iff_of_true rfl hc1
    · exact iff_of_false (by norm_num) hc1
    · exact iff_of_false (by norm_num) hc1
  · rw [h]
    norm_num [durationScore]
  · rw [h]
    norm_num [durationScore]

/-- Track of exactly 30000 ms for the claim C8 witness. -/
def boundary30000Track : Track :=
  { name := "x", artists := [], album := none,
    duration_ms := some 30000, track_number := none }

/-- Track of 29999 ms for the claim C8 witness. -/
def boundary29999Track : Track :=
  { name := "x", artists := [], album := none,
    duration_ms := some 29999, track_number := none }

/-- Claim C8 witness: at `30000` ms the duration contribution is `0`; at
`29999` ms it is `2`. -/
theorem claim8_witness :
    durationScore (boundary30000Track.duration_ms.getD 0)
        (strong_vocal_found (lowerL boundary30000Track.name)) = 0 ∧
      durationScore (boundary29999Track.duration_ms.getD 0)
        (strong_vocal_found (lowerL boundary29999Track.name)) = 2 :=
  ⟨(claim8_duration_strict_boundary boundary30000Track).2.1 rfl,
   (claim8_duration_strict_boundary boundary29999Track).2.2 rfl⟩

/-- Track of the claim C9 example. -/
def pianoSoloTrack : Track :=
  { name := "Piano Solo Instrumental", artists := ["Jane Doe"], album := some "Scores",
    duration_ms := some 600000, track_number := none }

/-- Claim C9 counterexample: the album name `"Scores"` contains no
strong-instrumental keyword (the bare word `score` is only a
medium-instrumental keyword, and that list is matched against the track name,
not the album), so this track does not receive the album-name bonus the
claim asserts. -/
theorem claim9_counterexample_no_album_bonus :
    pianoSoloTrack.album = some "Scores" ∧
      album_keyword_found (lowerL "Scores") = false := by
  exact ⟨rfl, by decide⟩

/-- Claim C9, amended: the track
`name="Piano Solo Instrumental", artists=["Jane Doe"], duration=600000 ms,
album="Scores"` with no enrichment data receives the strong-instrumental
keyword bonus (`+5`) and the instrumental pattern bonus (`+3`); the album
name `"Scores"` contains no strong-instrumental keyword so there is no album
bonus, and the remaining `+1` is the long-duration bonus (10 min `> 8` min
with no strong vocal keyword) — the total score is exactly `9` (hence at
least `9`) and the label is instrumental. -/
theorem claim9_amended_example_score_nine :
    strong_instrumental_found (lowerL "Piano Solo Instrumental") = true ∧
      firstPatternHit INSTRUMENTAL_PATTERNS (lowerL "Piano Solo Instrumental") = true ∧
      album_keyword_found (lowerL "Scores") = false ∧
      durationScore 600000 (strong_vocal_found (lowerL "Piano Solo Instrumental")) = 1 ∧
      totalScore pianoSoloTrack none [] = 9 ∧
      totalScore pianoSoloTrack none [] ≥ 9 ∧
      (is_likely_instrumental_advanced pianoSoloTrack none []).is_instrumental = true := by
  have e1 : strong_instrumental_found (lowerL "Piano Solo Instrumental") = true := by decide
  have e2 : medium_instrumental_found (lowerL "Piano Solo Instrumental") = false := by decide
  have e3 : strong_vocal_found (lowerL "Piano Solo Instrumental") = false := by decide
  have e4 : firstPatternHit INSTRUMENTAL_PATTERNS (lowerL "Piano Solo Instrumental") = true := by
    decide
  have e5 : firstPatternHit VOCAL_PATTERNS (lowerL "Piano Solo Instrumental") = false := by
    decide
  have e6 : album_keyword_found (lowerL "Scores") = false := by decide
  have e7 : matchingArtists [lowerL "Jane Doe"] = [] := by decide
  have h : totalScore pianoSoloTrack none [] = 9 := by
    norm_num [totalScore, pianoSoloTrack, e1, e2, e3, e4, e5, e6, e7, audioScoreOf,
      genreScoreOf, durationScore, trackNumberScore]
  refine ⟨e1, e4, e6, by rw [e3]; norm_num [durationScore], h, by rw [h], ?_⟩
  simp only [is_likely_instrumental_advanced, h, decide_eq_true_eq]
  norm_num

/-- Track with a missing `duration_ms` field and no other signal, for the
claim C10 witness. -/
def missingDurationTrack : Track :=
  { name := "zzz", artists := [], album := none,
    duration_ms := none, track_number := none }

/-- Claim C10: when `duration_ms` is absent, `track.get('duration_ms', 0)`
defaults it to `0` ms, `0 / 60000 < 0.5` holds, and the track receives the
`+2` intro/outro bonus; consequently a missing-duration track with no other
signal totals `2 > 1.5` and is labeled instrumental rather than lyrical. -/
theorem claim10_missing_duration_scores_two (t : Track)
    (hd : t.duration_ms = none) :
    durationScore (t.duration_ms.getD 0) (strong_vocal_found (lowerL t.name)) = 2 ∧
      (strong_instrumental_found (lowerL t.name) = false →
        medium_instrumental_found (lowerL t.name) = false →
        strong_vocal_found (lowerL t.name) = false →
        firstPatternHit INSTRUMENTAL_PATTERNS (lowerL t.name) = false →
        firstPatternHit VOCAL_PATTERNS (lowerL t.name) = false →
        album_keyword_found (match t.album with | some a => lowerL a | none => []) = false →
        matchingArtists (t.artists.map lowerL) = [] →
        trackNumberScore (t.track_number.getD 0) (lowerL t.name) = 0 →
        totalScore t none [] = 2 ∧
          (is_likely_instrumental_advanced t none []).is_instrumental = true) := by
  have hdur : durationScore (t.duration_ms.getD 0) (strong_vocal_found (lowerL t.name)) = 2 := by
    rw [hd]
    norm_num [durationScore]
  refine ⟨hdur, ?_⟩
  intro h1 h2 h3 h4 h5 h6 h7 h9
  have h : totalScore t none [] = 2 := by
    rw [totalScore_no_enrichment t, hdur, h9, h1, h2, h3, h4, h5, h6, h7]
    norm_num
  refine ⟨h, ?_⟩
  simp only [is_likely_instrumental_advanced, h, decide_eq_true_eq]
  norm_num

/-- Claim C10 witness: the signal-free track `"zzz"` with a missing duration
scores exactly `2` and is labeled instrumental. -/
theorem claim10_witness :
    totalScore missingDurationTrack none [] = 2 ∧
      (is_likely_instrumental_advanced missingDurationTrack none []).is_instrumental = true :=
  (claim10_missing_duration_scores_two missingDurationTrack rfl).2
    (by decide) (by decide) (by decide) (by decide) (by decide) (by decide) (by decide)
    (by norm_num [trackNumberScore, missingDurationTrack])

/-- Claim C4: the Indian/international classifier labels a track Indian
exactly when at least one of the five independent boolean checks holds —
artist-name match, language keyword in the track name, Indian-song keyword in
the track name, Indian-genre keyword among the first artist's fetched genres,
language-or-song keyword in the album name — with no scoring or threshold;
and the track `name="Tum Hi Ho", artists=["Arijit Singh"]` is labeled Indian
via the artist check for every album value and every genre-fetch outcome. -/
theorem claim4_indian_or_of_five_checks :
    (∀ (t : CulturaSort.Track) (g : Option (List String)),
      CulturaSort.is_indian_track t g = true ↔
        (CulturaSort.artist_match t.artists = true ∨
          CulturaSort.lang_match t.name = true ∨
          CulturaSort.genre_match g = true ∨
          CulturaSort.song_keyword_match t.name = true ∨
          CulturaSort.album_match t.album = true)) ∧
    (∀ (album : Option String) (g : Option (List String)),
      CulturaSort.is_indian_track
        { name := "Tum Hi Ho", artists := ["Arijit Singh"], album := album } g = true) := by
  constructor
  · intro t g
    simp [CulturaSort.is_indian_track, or_assoc]
  · intro album g
    have ha : CulturaSort.artist_match ["Arijit Singh"] = true := by decide
    simp [CulturaSort.is_indian_track, ha]

end Spec2Proof
